import Mathlib

/-!
Shallow embedding of the MoleculeLedger backend's credential-authentication
core (src/app/core/security.py, src/app/services/auth_service.py,
src/app/api/v1/auth_routes.py, src/app/models/user_models.py,
src/app/main.py) and proofs about it.

Conventions of the embedding:
  * Python dicts keyed by strings become association lists (`alistGet`,
    `alistSet`, `alistContains`) with Python's semantics: lookup of the one
    occurrence of a key, assignment replaces in place or appends at the end.
  * Wall-clock time and timedeltas are integers counting seconds; a
    `datetime` is the integer `now`, `timedelta(minutes=30)` is `30 * 60`.
  * The random salt that passlib draws inside `pwd_context.hash` is made an
    explicit argument, so that "two calls of hash" become two calls with two
    salts.
  * bcrypt (the scheme `pwd_context` is configured with) operates on the
    first 72 bytes of the UTF-8 encoding of the secret: longer secrets are
    silently truncated, which the embedding keeps.  The digest itself is
    idealised as an injective function of (salt, truncated bytes): real
    bcrypt collisions are not modelled.
  * passlib's `CryptContext.verify` raises `UnknownHashError` (a
    `ValueError`) when the hash string is not a recognisable bcrypt hash;
    `verify_password` in security.py does not catch it, so the embedding
    returns `Except String Bool`.
  * The HMAC-SHA256 signature of python-jose is idealised as `signPayload`,
    an executable keyed function of the payload; no property of it beyond
    decidable equality is used.
-/

namespace MoleculeLedger

/-! ## Python dicts as association lists -/

/-- Python `d.get(k)` / `d[k]`: the value stored at the one occurrence of
key `k`, if any. -/
def alistGet {α : Type} : List (String × α) → String → Option α
  | [], _ => none
  | (k', v) :: rest, k => if k' = k then some v else alistGet rest k

/-- Python `d[k] = v`: replace the existing entry for `k` in place, else
append a new entry at the end (dicts preserve insertion order). -/
def alistSet {α : Type} : List (String × α) → String → α → List (String × α)
  | [], k, v => [(k, v)]
  | (k', v') :: rest, k, v =>
      if k' = k then (k, v) :: rest else (k', v') :: alistSet rest k v

/-- Python `k in d`. -/
def alistContains {α : Type} (l : List (String × α)) (k : String) : Bool :=
  (alistGet l k).isSome

/-! ## UTF-8 and the bcrypt password-hashing model (security.py 37-54) -/

/-- The UTF-8 encoding of one character, as byte values. -/
def utf8EncodeChar (c : Char) : List Nat :=
  let n := c.toNat
  if n < 0x80 then [n]
  else if n < 0x800 then
    [0xC0 ||| (n >>> 6), 0x80 ||| (n &&& 0x3F)]
  else if n < 0x10000 then
    [0xE0 ||| (n >>> 12), 0x80 ||| ((n >>> 6) &&& 0x3F), 0x80 ||| (n &&& 0x3F)]
  else
    [0xF0 ||| (n >>> 18), 0x80 ||| ((n >>> 12) &&& 0x3F),
     0x80 ||| ((n >>> 6) &&& 0x3F), 0x80 ||| (n &&& 0x3F)]

/-- The UTF-8 encoding of a string, as byte values. -/
def utf8Bytes (s : String) : List Nat :=
  s.data.flatMap utf8EncodeChar

/-- bcrypt only feeds the first 72 bytes of the encoded secret into the key
schedule; passlib's bcrypt handler truncates longer secrets silently
(its `truncate_error` option is off by default). -/
def bcryptTruncate (s : String) : List Nat :=
  (utf8Bytes s).take 72

/-- A hash string, as passlib's `CryptContext` classifies it: either a
recognisable bcrypt hash (salt and digest recoverable from the string) or
text that matches no configured scheme. -/
inductive HashStr : Type
  | bcrypt (salt : Nat) (digest : List Nat)
  | malformed (raw : String)
deriving DecidableEq

/-- Idealised bcrypt digest: injective in the salt and the truncated secret
bytes (real bcrypt collisions are out of scope). -/
def bcryptDigest (salt : Nat) (secret : String) : List Nat :=
  salt :: bcryptTruncate secret

/-- security.py `get_password_hash` = `pwd_context.hash(password)`: a fresh
random salt (explicit argument here) is embedded in the output next to the
digest. -/
def get_password_hash (salt : Nat) (password : String) : HashStr :=
  HashStr.bcrypt salt (bcryptDigest salt password)

/-- security.py `verify_password` = `pwd_context.verify(plain, hashed)`:
recomputes the digest with the salt embedded in `hashed` and compares.
passlib raises `UnknownHashError` for a hash matching no configured scheme
and `verify_password` does not catch it, hence the `Except`. -/
def verify_password (plain_password : String) (hashed_password : HashStr) :
    Except String Bool :=
  match hashed_password with
  | HashStr.bcrypt salt digest =>
      Except.ok (decide (bcryptDigest salt plain_password = digest))
  | HashStr.malformed _ =>
      Except.error "UnknownHashError: hash could not be identified"

/-! ## JWT model (security.py 32-72) -/

/-- security.py `ACCESS_TOKEN_EXPIRE_MINUTES = 30`. -/
def ACCESS_TOKEN_EXPIRE_MINUTES : Int := 30

/-- A JSON value stored in a JWT payload: the repository only uses the
subject string and the integer expiry timestamp. -/
inductive JValue : Type
  | str (s : String)
  | int (n : Int)
deriving DecidableEq

/-- A JWT payload: a Python dict from claim names to values. -/
abbrev Dict : Type := List (String × JValue)

/-- Byte rendering of a JSON value, for the idealised signature. -/
def jvalueBytes : JValue → List Nat
  | JValue.str s => 0 :: utf8Bytes s
  | JValue.int n => 1 :: [n.toNat, (-n).toNat]

/-- Byte rendering of a payload, for the idealised signature. -/
def dictBytes (d : Dict) : List Nat :=
  d.flatMap (fun p => utf8Bytes p.1 ++ [256] ++ jvalueBytes p.2)

/-- Idealised HMAC of python-jose's `jwt.encode`: a keyed executable
function of the payload bytes. -/
def signPayload (key : Nat) (d : Dict) : Nat :=
  (dictBytes d).foldl (fun a b => a * 65599 + b) (key + 1)

/-- The result of `jwt.encode`: the signed payload. -/
structure EncodedJwt : Type where
  payload : Dict
  sig : Nat
deriving DecidableEq

/-- A token string handed to verification: either a structurally
well-formed JWT (payload plus signature recoverable from the text) or
malformed/truncated text. -/
inductive TokenStr : Type
  | jwt (payload : Dict) (sig : Nat)
  | malformed (raw : String)
deriving DecidableEq

/-- The token string an `EncodedJwt` serialises to. -/
def EncodedJwt.toTokenStr (e : EncodedJwt) : TokenStr :=
  TokenStr.jwt e.payload e.sig

/-- Python truthiness of the `expires_delta` argument at security.py line
65: `None` is falsy, and so is `timedelta(0)`. -/
def timedeltaTruthy : Option Int → Bool
  | none => false
  | some d => d != 0

/-- security.py `create_access_token(data, expires_delta)`, with the clock
and the signing key explicit.  Returns the encoded JWT together with the
caller's `data` dict as it stands after the call (the function works on
`to_encode = data.copy()`). -/
def create_access_token (data : Dict) (expires_delta : Option Int)
    (now : Int) (key : Nat) : EncodedJwt × Dict :=
  let to_encode := data
  let expire : Int :=
    if timedeltaTruthy expires_delta then now + expires_delta.getD 0
    else now + ACCESS_TOKEN_EXPIRE_MINUTES * 60
  let to_encode := alistSet to_encode "exp" (JValue.int expire)
  ({ payload := to_encode, sig := signPayload key to_encode }, data)

/-- Modelled from the spec: the repository has no token-verification code
under src/ (security.py lines 74-76 state that `decode_access_token` is not
implemented yet); this follows spec section 4.2, `verify(token) -> subject
| INVALID`: fail on a signature mismatch, on malformed/truncated input and
when the current time has reached the embedded expiry, else return the
embedded subject. -/
def decode_access_token (key : Nat) (now : Int) : TokenStr → Option String
  | TokenStr.malformed _ => none
  | TokenStr.jwt payload sig =>
      if sig = signPayload key payload then
        match alistGet payload "sub", alistGet payload "exp" with
        | some (JValue.str s), some (JValue.int e) =>
            if now < e then some s else none
        | _, _ => none
      else none

/-! ## Pydantic models (user_models.py) -/

/-- user_models.py `UserCreate`. -/
structure UserCreate : Type where
  email : String
  password : String
deriving DecidableEq

/-- user_models.py `UserLogin`. -/
structure UserLogin : Type where
  email : String
  password : String
deriving DecidableEq

/-- user_models.py `Token`: the login response.  `access_token` is the
encoded JWT string. -/
structure Token : Type where
  access_token : EncodedJwt
  token_type : String
deriving DecidableEq

/-- user_models.py `UserResponse`: the representation returned to callers,
which by construction carries no password-hash field. -/
structure UserResponse : Type where
  id : Nat
  email : String
deriving DecidableEq

/-! ## The auth service (auth_service.py) -/

/-- One entry of `fake_users_db`: the dict
`{"id": ..., "email": ..., "hashed_password": ...}` built in
`register_user`. -/
structure UserRecord : Type where
  id : Nat
  email : String
  hashed_password : HashStr
deriving DecidableEq

/-- The module-level mutable state of auth_service.py: `fake_users_db`
(email to user record) and `user_id_counter`. -/
structure AuthState : Type where
  fake_users_db : List (String × UserRecord)
  user_id_counter : Nat
deriving DecidableEq

/-- The state at process start: `fake_users_db = {}`,
`user_id_counter = 1`. -/
def initState : AuthState := { fake_users_db := [], user_id_counter := 1 }

/-- auth_service.py `AuthService.register_user`, with the salt drawn inside
`get_password_hash` explicit.  Returns the value returned to the route and
the module state after the call. -/
def register_user (user_create : UserCreate) (salt : Nat) (st : AuthState) :
    Option UserResponse × AuthState :=
  if alistContains st.fake_users_db user_create.email then
    (none, st)
  else
    let hashed_password := get_password_hash salt user_create.password
    let new_user : UserRecord :=
      { id := st.user_id_counter
        email := user_create.email
        hashed_password := hashed_password }
    let db := alistSet st.fake_users_db user_create.email new_user
    (some { id := new_user.id, email := new_user.email },
     { fake_users_db := db, user_id_counter := st.user_id_counter + 1 })

/-- auth_service.py `AuthService.authenticate_user`.  Returns
`Except.error` when `verify_password` raises (propagating the uncaught
exception), `Except.ok none` for an unknown email or a wrong password, and
`Except.ok (some user)` on success; paired with the module state after the
call. -/
def authenticate_user (user_login : UserLogin) (st : AuthState) :
    Except String (Option UserResponse) × AuthState :=
  match alistGet st.fake_users_db user_login.email with
  | none => (Except.ok none, st)
  | some user_data =>
      match verify_password user_login.password user_data.hashed_password with
      | Except.error e => (Except.error e, st)
      | Except.ok b =>
          if b then
            (Except.ok (some { id := user_data.id, email := user_data.email }), st)
          else
            (Except.ok none, st)

/-- auth_service.py `AuthService.create_user_access_token`, with the clock
and the signing key explicit: `token_expires = timedelta(minutes=30)`,
`token_data = {"sub": user_email}`. -/
def create_user_access_token (user_email : String) (now : Int) (key : Nat) :
    Token :=
  let token_expires : Int := 30 * 60
  let token_data : Dict := [("sub", JValue.str user_email)]
  let access_token := (create_access_token token_data (some token_expires) now key).1
  { access_token := access_token, token_type := "bearer" }

/-! ## The HTTP routes (auth_routes.py) -/

/-- What the `/auth/login` route hands back: a token, an `HTTPException`
the route raised deliberately, or an exception that escaped the handler. -/
inductive LoginResult : Type
  | ok (t : Token)
  | httpError (statusCode : Nat) (details : String)
  | exn (msg : String)
deriving DecidableEq

/-- What the `/auth/register` route hands back. -/
inductive RegisterResult : Type
  | ok (u : UserResponse)
  | httpError (statusCode : Nat) (details : String)
deriving DecidableEq

/-- auth_routes.py `register`: delegates to `register_user` and maps `None`
to `HTTPException(409, "Email already registered")`. -/
def register_route (user_create : UserCreate) (salt : Nat) (st : AuthState) :
    RegisterResult × AuthState :=
  match register_user user_create salt st with
  | (none, st') => (RegisterResult.httpError 409 "Email already registered", st')
  | (some u, st') => (RegisterResult.ok u, st')

/-- auth_routes.py `login`: delegates to `authenticate_user`, maps a `None`
result to `HTTPException(401, "Incorrect email or password")`, and on
success returns `create_user_access_token(user.email)`. -/
def login_route (user_login : UserLogin) (now : Int) (key : Nat)
    (st : AuthState) : LoginResult × AuthState :=
  match authenticate_user user_login st with
  | (Except.error e, st') => (LoginResult.exn e, st')
  | (Except.ok none, st') =>
      (LoginResult.httpError 401 "Incorrect email or password", st')
  | (Except.ok (some user), st') =>
      (LoginResult.ok (create_user_access_token user.email now key), st')

/-! ## Traces of register/login calls, for the directory invariant -/

/-- One external call: a register request (with the salt its hashing draws)
or a login request (with its clock reading and the signing key). -/
inductive AuthOp : Type
  | register (email password : String) (salt : Nat)
  | login (email password : String) (now : Int) (key : Nat)

/-- The module state after serving one call. -/
def stepOp (st : AuthState) : AuthOp → AuthState
  | AuthOp.register e p salt => (register_route { email := e, password := p } salt st).2
  | AuthOp.login e p now key => (login_route { email := e, password := p } now key st).2

/-- The module state after serving a sequence of calls. -/
def runOps (ops : List AuthOp) (st : AuthState) : AuthState :=
  ops.foldl stepOp st

/-- The directory invariant of spec section 3: one identity per email, ids
unique and strictly increasing in issuance order, and the counter advanced
exactly once per stored record (so only successful inserts consume an id). -/
def DirectoryInvariant (st : AuthState) : Prop :=
  (st.fake_users_db.map Prod.fst).Nodup ∧
  List.Pairwise (fun a b => a < b) (st.fake_users_db.map (fun p => p.2.id)) ∧
  st.user_id_counter = 1 + st.fake_users_db.length

/-- Strengthened induction invariant: the stored ids are exactly
`1, 2, ..., n` in insertion order. -/
def StrongInv (st : AuthState) : Prop :=
  (st.fake_users_db.map Prod.fst).Nodup ∧
  st.fake_users_db.map (fun p => p.2.id) = List.range' 1 st.fake_users_db.length ∧
  st.user_id_counter = 1 + st.fake_users_db.length

/-! ## Startup configuration checks (security.py 28-30, main.py 28-30) -/

/-- Python truthiness of an `os.getenv` result: `None` and the empty string
are falsy. -/
def envTruthy : Option String → Bool
  | none => false
  | some s => s != ""

/-- The two module-level environment checks that run at startup:
security.py raises `ValueError` when `JWT_SECRET_KEY` is unset and main.py
raises `ValueError` when `INFURA_PROJECT_ID` is unset; either aborts the
process before it serves a request. -/
def startup_checks (jwt_secret_key infura_project_id : Option String) :
    Except String Unit :=
  if !envTruthy jwt_secret_key then
    Except.error "JWT_SECRET_KEY not found in .env file. Please generate one."
  else if !envTruthy infura_project_id then
    Except.error "INFURA_PROJECT_ID not found in .env file. Please create one."
  else
    Except.ok ()

/-! ## Concrete data used by the witness statements -/

/-- A registered account: email `a@x.com`, password `pw` hashed with
salt 0. -/
def demoRecord : UserRecord :=
  { id := 1, email := "a@x.com", hashed_password := get_password_hash 0 "pw" }

/-- A directory holding exactly the account `demoRecord`. -/
def demoState : AuthState :=
  { fake_users_db := [("a@x.com", demoRecord)], user_id_counter := 2 }

/-- A 73-character secret: 73 copies of `a`. -/
def longSecretA : String := String.mk (List.replicate 73 'a')

/-- A second 73-character secret agreeing with `longSecretA` on the first
72 bytes and differing at the 73rd. -/
def longSecretB : String := String.mk (List.replicate 72 'a' ++ ['b'])

/-! ## Association-list lemmas -/

/-- Lookup misses exactly the keys the dict does not hold. -/
theorem alistGet_eq_none_iff {α : Type} (l : List (String × α)) (k : String) :
    alistGet l k = none ↔ k ∉ l.map Prod.fst := by
  induction l with
  | nil => simp [alistGet]
  | cons hd tl ih =>
    obtain ⟨k', v⟩ := hd
    by_cases h : k' = k
    · subst h
      simp [alistGet]
    · simp [alistGet, h, ih, Ne.symm h]

/-- Assignment of an absent key appends the new entry at the end. -/
theorem alistSet_of_get_none {α : Type} (l : List (String × α)) (k : String)
    (v : α) (h : alistGet l k = none) : alistSet l k v = l ++ [(k, v)] := by
  induction l with
  | nil => rfl
  | cons hd tl ih =>
    obtain ⟨k', v'⟩ := hd
    by_cases hk : k' = k
    · subst hk
      simp [alistGet] at h
    · rw [alistGet] at h
      rw [if_neg hk] at h
      simp [alistSet, hk, ih h]

/-- Assignment stores the assigned value at the assigned key. -/
theorem alistGet_set_self {α : Type} (l : List (String × α)) (k : String)
    (v : α) : alistGet (alistSet l k v) k = some v := by
  induction l with
  | nil => simp [alistSet, alistGet]
  | cons hd tl ih =>
    obtain ⟨k', v'⟩ := hd
    by_cases hk : k' = k
    · subst hk
      simp [alistSet, alistGet]
    · simp [alistSet, alistGet, hk, ih]

/-- Assignment leaves every other key's value alone. -/
theorem alistGet_set_ne {α : Type} (l : List (String × α)) (k k' : String)
    (v : α) (h : k' ≠ k) : alistGet (alistSet l k v) k' = alistGet l k' := by
  induction l with
  | nil => simp [alistSet, alistGet, Ne.symm h]
  | cons hd tl ih =>
    obtain ⟨k2, v2⟩ := hd
    by_cases hk : k2 = k
    · subst hk
      simp [alistSet, alistGet, Ne.symm h]
    · simp [alistSet, alistGet, hk, ih]

/-! ## Service-layer lemmas -/

/-- `authenticate_user` returns the module state it was given on every
path. -/
theorem authenticate_user_snd (ul : UserLogin) (st : AuthState) :
    (authenticate_user ul st).2 = st := by
  unfold authenticate_user
  rcases hG : alistGet st.fake_users_db ul.email with _ | user_data
  · rfl
  · rcases hV : verify_password ul.password user_data.hashed_password with e | b
    · simp [hV]
    · rcases b <;> simp [hV]

/-- The login route returns the module state it was given on every path. -/
theorem login_route_snd (ul : UserLogin) (now : Int) (key : Nat)
    (st : AuthState) : (login_route ul now key st).2 = st := by
  have h := authenticate_user_snd ul st
  unfold login_route
  rcases hA : authenticate_user ul st with ⟨res, st2⟩
  rw [hA] at h
  simp only at h
  subst h
  cases res with
  | error e => rfl
  | ok o => cases o <;> rfl

/-! ## Claim theorems -/

/-- C3: `register_user` fails (returns `None`, which the route turns into
the duplicate-account error) if and only if the email is already present;
on failure the directory and the id counter are unchanged; on success the
returned value is the `UserResponse` holding exactly the new id and the
email (the `UserResponse` type carries no password-hash field, so the
secret hash is never returned). -/
theorem register_user_correct (uc : UserCreate) (salt : Nat) (st : AuthState) :
    ((register_user uc salt st).1 = none ↔
      alistContains st.fake_users_db uc.email = true) ∧
    ((register_user uc salt st).1 = none → (register_user uc salt st).2 = st) ∧
    (∀ r : UserResponse, (register_user uc salt st).1 = some r →
      r = { id := st.user_id_counter, email := uc.email }) := by
  by_cases hc : alistContains st.fake_users_db uc.email
  · simp [register_user, hc]
  · refine ⟨by simp [register_user, hc], by simp [register_user, hc], ?_⟩
    intro r hr
    simp [register_user, hc] at hr
    exact hr.symm

/-- C6 counterexample: for a hash string that matches no configured scheme,
`verify_password` propagates passlib's `UnknownHashError` instead of
returning false (security.py line 46 does not catch it), so the claim that
it returns a boolean and never throws is false at this input. -/
theorem verify_password_malformed_cex :
    verify_password "pw" (HashStr.malformed "plaintext") =
      Except.error "UnknownHashError: hash could not be identified" ∧
    verify_password "pw" (HashStr.malformed "plaintext") ≠ Except.ok false ∧
    verify_password "pw" (HashStr.malformed "plaintext") ≠ Except.ok true :=
  ⟨rfl, fun h => Except.noConfusion h, fun h => Except.noConfusion h⟩

/-- C6 (amended): for every secret and every recognisable bcrypt hash
string, `verify_password` returns a boolean; for a malformed hash string it
raises (the error propagates to the caller) rather than returning false. -/
theorem verify_password_amended (plain raw : String) (salt : Nat)
    (digest : List Nat) :
    (∃ b : Bool, verify_password plain (HashStr.bcrypt salt digest) =
      Except.ok b) ∧
    (∃ msg : String, verify_password plain (HashStr.malformed raw) =
      Except.error msg) :=
  ⟨⟨_, rfl⟩, ⟨_, rfl⟩⟩

/-- C8 counterexample: with the signing secret present but
`INFURA_PROJECT_ID` unset, startup still aborts (main.py lines 28-30), so
the signing secret is not the only process-fatal configuration failure. -/
theorem startup_infura_cex :
    envTruthy (some "supersecret") = true ∧
    startup_checks (some "supersecret") none =
      Except.error "INFURA_PROJECT_ID not found in .env file. Please create one." ∧
    startup_checks (some "supersecret") none ≠ Except.ok () :=
  ⟨rfl, rfl, fun h => Except.noConfusion h⟩

/-- C8 (amended): startup aborts exactly when the signing secret
(`JWT_SECRET_KEY`, security.py lines 28-30) or the Infura project id
(`INFURA_PROJECT_ID`, main.py lines 28-30) is absent or empty; both checks
are the only process-fatal failures, and every other failure in the
embedded operations is returned to the caller as a typed result. -/
theorem startup_checks_iff (jwt_secret infura_id : Option String) :
    startup_checks jwt_secret infura_id = Except.ok () ↔
      envTruthy jwt_secret = true ∧ envTruthy infura_id = true := by
  unfold startup_checks
  cases hj : envTruthy jwt_secret <;> cases hi : envTruthy infura_id <;> simp

/-- C9: `create_access_token` never mutates the caller's payload dict: it
adds the expiry claim to `to_encode = data.copy()` only, so the dict the
caller passed is the same after the call. -/
theorem create_access_token_pure_argument (data : Dict) (ttl : Option Int)
    (now : Int) (key : Nat) : (create_access_token data ttl now key).2 = data :=
  rfl

/-- C10: `authenticate_user` is read-only: on the unknown-email path, the
wrong-password path, the success path and the path on which
`verify_password` raises, the account directory and the id counter after
the call equal those before it. -/
theorem authenticate_user_read_only (ul : UserLogin) (st : AuthState) :
    (authenticate_user ul st).2 = st :=
  authenticate_user_snd ul st

/-- C2: the login route answers a never-registered email and a registered
email with a wrong password with the very same
`HTTPException(401, "Incorrect email or password")` value, so the two
failure cases are indistinguishable to the caller. -/
theorem login_indistinguishable (st1 st2 : AuthState) (e1 p1 e2 p2 : String)
    (now1 now2 : Int) (key1 key2 : Nat)
    (h1 : alistGet st1.fake_users_db e1 = none)
    (h2 : ∃ r : UserRecord, alistGet st2.fake_users_db e2 = some r ∧
      verify_password p2 r.hashed_password = Except.ok false) :
    (login_route { email := e1, password := p1 } now1 key1 st1).1 =
      LoginResult.httpError 401 "Incorrect email or password" ∧
    (login_route { email := e2, password := p2 } now2 key2 st2).1 =
      LoginResult.httpError 401 "Incorrect email or password" ∧
    (login_route { email := e1, password := p1 } now1 key1 st1).1 =
      (login_route { email := e2, password := p2 } now2 key2 st2).1 := by
  obtain ⟨r, hget, hverify⟩ := h2
  have hA : (login_route { email := e1, password := p1 } now1 key1 st1).1 =
      LoginResult.httpError 401 "Incorrect email or password" := by
    simp [login_route, authenticate_user, h1]
  have hB : (login_route { email := e2, password := p2 } now2 key2 st2).1 =
      LoginResult.httpError 401 "Incorrect email or password" := by
    simp [login_route, authenticate_user, hget, hverify]
  exact ⟨hA, hB, hA.trans hB.symm⟩

/-- C2 witness: the empty directory with a ghost email, and a directory
holding `a@x.com` (password `pw`) probed with the wrong password `wrong`,
both produce the same 401 error. -/
theorem login_indistinguishable_witness :
    (login_route { email := "ghost@x.com", password := "z" } 0 3
      { fake_users_db := [], user_id_counter := 1 }).1 =
      LoginResult.httpError 401 "Incorrect email or password" ∧
    (login_route { email := "a@x.com", password := "wrong" } 0 3 demoState).1 =
      LoginResult.httpError 401 "Incorrect email or password" ∧
    (login_route { email := "ghost@x.com", password := "z" } 0 3
      { fake_users_db := [], user_id_counter := 1 }).1 =
      (login_route { email := "a@x.com", password := "wrong" } 0 3 demoState).1 :=
  login_indistinguishable { fake_users_db := [], user_id_counter := 1 } demoState
    "ghost@x.com" "z" "a@x.com" "wrong" 0 0 3 3 rfl ⟨demoRecord, rfl, rfl⟩

/-- C7 counterexample: bcrypt truncates the secret to its first 72 bytes
(passlib truncates silently), so the two distinct 73-character secrets
`longSecretA` and `longSecretB` verify against each other's hash: the
claim that `verify(s1, hash(s2))` is false for all `s1 ≠ s2` fails here. -/
theorem hash_verify_truncation_cex :
    longSecretA ≠ longSecretB ∧
    verify_password longSecretA (get_password_hash 5 longSecretB) =
      Except.ok true := by
  constructor
  · decide
  · rfl

/-- C7 (amended): `verify(s, hash(s))` is true for every secret; hashing
the same secret with two different salts gives two different hash strings
that both verify; and for two secrets that differ within their first 72
UTF-8 bytes (bcrypt's input, longer secrets being truncated),
`verify(s1, hash(s2))` is false. -/
theorem hash_verify_properties (s s1 s2 : String) (salt salt1 salt2 : Nat)
    (hsalt : salt1 ≠ salt2)
    (hdiff : bcryptTruncate s1 ≠ bcryptTruncate s2) :
    verify_password s (get_password_hash salt s) = Except.ok true ∧
    get_password_hash salt1 s ≠ get_password_hash salt2 s ∧
    verify_password s (get_password_hash salt1 s) = Except.ok true ∧
    verify_password s (get_password_hash salt2 s) = Except.ok true ∧
    verify_password s1 (get_password_hash salt s2) = Except.ok false := by
  refine ⟨by simp [verify_password, get_password_hash], ?_,
    by simp [verify_password, get_password_hash],
    by simp [verify_password, get_password_hash], ?_⟩
  · intro h
    rw [get_password_hash, get_password_hash] at h
    injection h with hs hd
    exact hsalt hs
  · simp [verify_password, get_password_hash, bcryptDigest, hdiff]

/-- C7 witness: concrete secrets `pw`, `alpha`, `beta` and salts 3, 0, 1
realise every hypothesis of the amended round-trip theorem. -/
theorem hash_verify_properties_witness :
    verify_password "pw" (get_password_hash 3 "pw") = Except.ok true ∧
    get_password_hash 0 "pw" ≠ get_password_hash 1 "pw" ∧
    verify_password "pw" (get_password_hash 0 "pw") = Except.ok true ∧
    verify_password "pw" (get_password_hash 1 "pw") = Except.ok true ∧
    verify_password "alpha" (get_password_hash 3 "beta") = Except.ok false :=
  hash_verify_properties "pw" "alpha" "beta" 3 0 1 (by decide) (by decide)

/-- C5 counterexample: a supplied ttl of zero falls through `if
expires_delta:` (a zero timedelta is falsy in Python), so the token expires
at `now + 1800` instead of the claimed `now + ttl = now`. -/
theorem create_access_token_zero_ttl_cex :
    alistGet (create_access_token [("sub", JValue.str "a@x.com")] (some 0)
      1000 7).1.payload "exp" = some (JValue.int 2800) ∧
    (2800 : Int) ≠ 1000 + 0 := by
  constructor
  · rfl
  · decide

/-- C5 (amended): issuing a token embeds the subject unchanged and an
absolute expiry of `now + ttl` when a nonzero ttl is supplied, and of `now`
plus the default validity window of 30 minutes when no ttl is supplied or
the supplied ttl is zero (a zero timedelta is falsy at security.py line
65). -/
theorem create_access_token_expiry (data : Dict) (ttl : Option Int)
    (now : Int) (key : Nat) (v : JValue)
    (hsub : alistGet data "sub" = some v) :
    alistGet (create_access_token data ttl now key).1.payload "sub" = some v ∧
    (∀ d : Int, ttl = some d → d ≠ 0 →
      alistGet (create_access_token data ttl now key).1.payload "exp" =
        some (JValue.int (now + d))) ∧
    ((ttl = none ∨ ttl = some 0) →
      alistGet (create_access_token data ttl now key).1.payload "exp" =
        some (JValue.int (now + ACCESS_TOKEN_EXPIRE_MINUTES * 60))) := by
  refine ⟨?_, ?_, ?_⟩
  · show alistGet (alistSet data "exp" _) "sub" = some v
    rw [alistGet_set_ne _ _ _ _ (by decide)]
    exact hsub
  · intro d hd hne
    subst hd
    show alistGet (alistSet data "exp"
      (JValue.int (if timedeltaTruthy (some d) then now + d
        else now + ACCESS_TOKEN_EXPIRE_MINUTES * 60))) "exp" = _
    rw [alistGet_set_self]
    simp [timedeltaTruthy, hne]
  · intro hcase
    rcases hcase with h | h <;> subst h <;>
      · show alistGet (alistSet data "exp" _) "exp" = _
        rw [alistGet_set_self]
        simp [timedeltaTruthy]

/-- C5 witness: a payload carrying subject `a@x.com` with ttl 60 at time
1000 keeps the subject, honours the nonzero ttl and would use the default
only for an absent or zero ttl. -/
theorem create_access_token_expiry_witness :
    alistGet (create_access_token [("sub", JValue.str "a@x.com")] (some 60)
      1000 7).1.payload "sub" = some (JValue.str "a@x.com") ∧
    (∀ d : Int, (some 60 : Option Int) = some d → d ≠ 0 →
      alistGet (create_access_token [("sub", JValue.str "a@x.com")] (some 60)
        1000 7).1.payload "exp" = some (JValue.int (1000 + d))) ∧
    (((some 60 : Option Int) = none ∨ (some 60 : Option Int) = some 0) →
      alistGet (create_access_token [("sub", JValue.str "a@x.com")] (some 60)
        1000 7).1.payload "exp" =
        some (JValue.int (1000 + ACCESS_TOKEN_EXPIRE_MINUTES * 60))) :=
  create_access_token_expiry [("sub", JValue.str "a@x.com")] (some 60) 1000 7
    (JValue.str "a@x.com") rfl

/-- C1: token verification returns the embedded subject exactly when the
token is a structurally well-formed JWT whose signature matches the signing
key and whose embedded expiry is still strictly in the future; a mismatched
signature, malformed or truncated input, a payload without the standard
claims, or a reached expiry all yield the invalid result, and the function
is total (it never crashes). -/
theorem decode_access_token_correct (key : Nat) (now : Int) (t : TokenStr)
    (s : String) :
    decode_access_token key now t = some s ↔
      ∃ p g e, t = TokenStr.jwt p g ∧ g = signPayload key p ∧
        alistGet p "sub" = some (JValue.str s) ∧
        alistGet p "exp" = some (JValue.int e) ∧ now < e := by
  cases t with
  | malformed r => simp [decode_access_token]
  | jwt p g =>
    by_cases hg : g = signPayload key p
    · rcases hsub : alistGet p "sub" with _ | v
      · simp [decode_access_token, hg, hsub]
      · cases v with
        | int n => simp [decode_access_token, hg, hsub]
        | str s2 =>
          rcases hexp : alistGet p "exp" with _ | w
          · simp [decode_access_token, hg, hsub, hexp]
          · cases w with
            | str s3 => simp [decode_access_token, hg, hsub, hexp]
            | int e =>
              by_cases he : now < e
              · simp [decode_access_token, hg, hsub, hexp, he]
                constructor
                · rintro rfl
                  exact ⟨p, signPayload key p, ⟨rfl, rfl⟩, rfl, hsub, e, hexp, he⟩
                · rintro ⟨p1, g1, ⟨rfl, hg1⟩, hg2, hsub1, x, hexp1, hx⟩
                  rw [hsub] at hsub1
                  injection hsub1 with hv
                  injection hv with hs2
              · simp [decode_access_token, hg, hsub, hexp, he]
                intro _
                omega
    · simp [decode_access_token, hg]

/-- A key the membership test misses is absent from the dict. -/
theorem alistGet_of_contains_false {α : Type} (l : List (String × α))
    (k : String) (h : alistContains l k = false) : alistGet l k = none := by
  unfold alistContains at h
  rcases hg : alistGet l k with _ | v
  · rfl
  · rw [hg] at h
    simp at h

/-- Serving one register or login call preserves the strengthened
directory invariant. -/
theorem strongInv_step (st : AuthState) (op : AuthOp) (h : StrongInv st) :
    StrongInv (stepOp st op) := by
  obtain ⟨h1, h2, h3⟩ := h
  cases op with
  | login e p now key =>
    rw [stepOp, login_route_snd]
    exact ⟨h1, h2, h3⟩
  | register e p salt =>
    by_cases hc : alistContains st.fake_users_db e
    · have hstep : stepOp st (AuthOp.register e p salt) = st := by
        simp [stepOp, register_route, register_user, hc]
      rw [hstep]
      exact ⟨h1, h2, h3⟩
    · have hget : alistGet st.fake_users_db e = none :=
        alistGet_of_contains_false _ _ (by simpa using hc)
      have hstep : stepOp st (AuthOp.register e p salt) =
          { fake_users_db := st.fake_users_db ++
              [(e, { id := st.user_id_counter, email := e,
                     hashed_password := get_password_hash salt p })],
            user_id_counter := st.user_id_counter + 1 } := by
        simp [stepOp, register_route, register_user, hc,
          alistSet_of_get_none _ _ _ hget]
      rw [hstep]
      refine ⟨?_, ?_, ?_⟩ <;> dsimp only
      · rw [List.map_append, List.nodup_append]
        refine ⟨h1, List.nodup_singleton _, ?_⟩
        simp only [List.map_cons, List.map_nil, List.disjoint_singleton]
        exact (alistGet_eq_none_iff _ _).mp hget
      · simp only [List.map_append, List.map_cons, List.map_nil,
          List.length_append, List.length_cons, List.length_nil]
        rw [h2, List.range'_concat, h3]
        simp
      · simp only [List.length_append, List.length_cons, List.length_nil]
        omega

/-- Serving any sequence of calls from a state satisfying the strengthened
invariant lands in a state satisfying it. -/
theorem strongInv_runOps (ops : List AuthOp) (st : AuthState)
    (h : StrongInv st) : StrongInv (runOps ops st) := by
  induction ops generalizing st with
  | nil => simpa [runOps] using h
  | cons op rest ih =>
    rw [runOps, List.foldl_cons]
    simpa [runOps] using ih (stepOp st op) (strongInv_step st op h)

/-- C4: in every state reachable from the initial state by register and
login calls, the directory holds one record per email, the stored ids are
pairwise strictly increasing in insertion order (hence unique), and the
counter stands exactly one past the number of stored records, so an id is
consumed only by a successful insert. -/
theorem directory_invariant_reachable (ops : List AuthOp) :
    DirectoryInvariant (runOps ops initState) := by
  obtain ⟨h1, h2, h3⟩ :=
    strongInv_runOps ops initState ⟨List.Pairwise.nil, rfl, rfl⟩
  refine ⟨h1, ?_, h3⟩
  rw [h2]
  exact List.pairwise_lt_range' 1 _

end MoleculeLedger
